import Mathlib

/-!
Shallow embedding of the hddsaver driver (src/dkms/src/saver6775.c).

The driver talks to a Super-I/O chip through two adjacent I/O ports
(index port `ioreg`, data port `ioreg + 1`).  We model the chip as a
register file indexed by (logical device, register index) together with
the index-port latch and the currently selected logical device.  Every
port transaction is also recorded in an event trace, so that frame
properties ("no bus traffic", "no GPIO access") and bracket pairing can
be stated as facts about the trace.

External nondeterminism (request_muxed_region / devm_request_region
outcomes, DMI board strings, allocation success, the resource start and
jiffies clock) is passed in as explicit parameters.  Machine bytes are
Nat values reduced mod 256 at the port boundary, mirroring outb/inb.
-/

namespace HddSaver

/-- Register and chip constants from saver6775.c. -/
def SIO_REG_LDSEL : Nat := 0x07

def SIO_REG_DEVID : Nat := 0x20

def SIO_REG_ENABLE : Nat := 0x30

def SIO_REG_ADDR : Nat := 0x60

def SIO_ID_MASK : Nat := 0xFFF8

def SIO_NCT6791_ID : Nat := 0xc800

def NCT6775_LD_HWM : Nat := 0x0b

def NCT6775_LD_GPIO_DATA : Nat := 0x08

def NCT6775_REG_CR_GPIO1_DATA : Nat := 0xf1

def NCT6791_REG_HM_IO_SPACE_LOCK_ENABLE : Nat := 0x28

/-- IOREGION_ALIGNMENT is written `~7` in the source; it is only ever
applied to a 16-bit value, where it equals the mask 0xFFF8. -/
def IOREGION_ALIGNMENT : Nat := 0xFFF8

def IOREGION_OFFSET : Nat := 5

def IOREGION_LENGTH : Nat := 2

def NCT6775_REG_CONFIG : Nat := 0x40

def MAXRETRIES : Nat := 5

/-- Linux error numbers used by the driver (returned negated). -/
def EBUSY : Int := 16

def ENOMEM : Int := 12

def ENODEV : Int := 19

def EINVAL : Int := 22

/-- The single supported chip kind (enum kinds). -/
inductive Kinds where
  | nct6791
  deriving DecidableEq

/-- One observable bus-level event: a byte written to a port, a byte
read from a port, or a reservation request/release of the two-port
region (request_muxed_region / release_region, and the devm region in
probe is modelled separately as pure outcomes). -/
inductive Ev where
  | outb (port val : Nat)
  | inb (port : Nat)
  | reqRegion (base len : Nat) (ok : Bool)
  | relRegion (base len : Nat)
  deriving DecidableEq

/-- Chip-side state behind the two ports: the index-port latch, the
currently selected logical device (written through register 0x07), and
the per-(logical device, register) byte file. -/
structure SioState where
  idx : Nat
  ld : Nat
  regs : Nat → Nat → Nat

/-- Functional update of the register file at one (ld, reg) cell. -/
def updReg (f : Nat → Nat → Nat) (l r v : Nat) : Nat → Nat → Nat :=
  fun l2 r2 => if l2 = l ∧ r2 = r then v else f l2 r2

/-- Effect of outb to the index port: latch the register index. -/
def outIndex (v : Nat) (s : SioState) : SioState :=
  { s with idx := v % 256 }

/-- Effect of outb to the data port: writing through index 0x07 selects
the logical device, any other index writes the addressed register. -/
def outData (v : Nat) (s : SioState) : SioState :=
  if s.idx = SIO_REG_LDSEL then { s with ld := v % 256 }
  else { s with regs := updReg s.regs s.ld s.idx (v % 256) }

/-- Effect of inb from the data port: the addressed register byte. -/
def inData (s : SioState) : Nat :=
  s.regs s.ld s.idx % 256

/-- superio_outb: index write then data write (two ordered outb). -/
def superio_outb (ioreg reg val : Nat) (s : SioState) : SioState × List Ev :=
  (outData val (outIndex reg s),
   [Ev.outb ioreg reg, Ev.outb (ioreg + 1) val])

/-- superio_inb: index write then data read. -/
def superio_inb (ioreg reg : Nat) (s : SioState) : Nat × SioState × List Ev :=
  let s1 := outIndex reg s
  (inData s1, s1, [Ev.outb ioreg reg, Ev.inb (ioreg + 1)])

/-- superio_select: write the logical-device-select register 0x07. -/
def superio_select (ioreg ld : Nat) (s : SioState) : SioState × List Ev :=
  (outData ld (outIndex SIO_REG_LDSEL s),
   [Ev.outb ioreg SIO_REG_LDSEL, Ev.outb (ioreg + 1) ld])

/-- superio_enter: try to reserve the two ports (outcome `ok` supplied
by the environment); on failure return -EBUSY having touched nothing,
on success issue the 0x87 0x87 unlock key to the index port. -/
def superio_enter (ioreg : Nat) (ok : Bool) (s : SioState) :
    Int × SioState × List Ev :=
  if ok then
    (0, outIndex 0x87 (outIndex 0x87 s),
     [Ev.reqRegion ioreg 2 true, Ev.outb ioreg 0x87, Ev.outb ioreg 0x87])
  else (-EBUSY, s, [Ev.reqRegion ioreg 2 false])

/-- superio_exit: the 0xaa lock key, the write of 0x02 to register
0x02, then release of the region. -/
def superio_exit (ioreg : Nat) (s : SioState) : SioState × List Ev :=
  (outData 0x02 (outIndex 0x02 (outIndex 0xaa s)),
   [Ev.outb ioreg 0xaa, Ev.outb ioreg 0x02, Ev.outb (ioreg + 1) 0x02,
    Ev.relRegion ioreg 2])

/-- Driver per-chip record (struct nct6775_data); the voltage array is
omitted, the driver never reads it.  Jiffies are Nat (wraparound of the
jiffies counter is not modelled). -/
structure NctData where
  addr : Nat
  sioreg : Nat
  kind : Kinds
  REG_CONFIG : Nat
  valid : Bool
  last_updated : Nat
  bank : Nat
  in_num : Nat
  have_hddsaver : Bool
  hddsaver_status : Bool
  sio_reg_enable : Nat
  deriving DecidableEq

/-- Platform data handed from discovery to probe (struct
nct6775_sio_data). -/
structure SioDataRec where
  sioreg : Nat
  kind : Kinds
  deriving DecidableEq

/-- Kernel helper kstrtobool, embedded from its standard semantics: the
first character decides, and for an initial o or O the second character
is consulted; anything else is -EINVAL (none). -/
def kstrtobool : List Char → Option Bool
  | [] => none
  | c :: rest =>
    if c = 'y' ∨ c = 'Y' ∨ c = 't' ∨ c = 'T' ∨ c = '1' then some true
    else if c = 'n' ∨ c = 'N' ∨ c = 'f' ∨ c = 'F' ∨ c = '0' then some false
    else if c = 'o' ∨ c = 'O' then
      match rest with
      | c2 :: _ =>
        if c2 = 'n' ∨ c2 = 'N' then some true
        else if c2 = 'f' ∨ c2 = 'F' then some false
        else none
      | [] => none
    else none

/-- nct6775_update_device: under the update lock, if the cache is older
than HZ + HZ/2 jiffies or marked invalid, refresh the timestamp and the
valid flag.  The body performs no port access at all. -/
def nct6775_update_device (now hz : Nat) (d : NctData) : NctData :=
  if d.last_updated + hz + hz / 2 < now ∨ d.valid = false then
    { d with last_updated := now, valid := true }
  else d

/-- Result of the sysfs show callback: the formatted output plus the
device record; the chip state and trace are threaded to make the
absence of port access visible (the body issues none). -/
structure ShowRes where
  out : String
  data : NctData
  chip : SioState
  ev : List Ev

/-- show_hddsaver: run the update pass, print On/Off from the cache. -/
def show_hddsaver (now hz : Nat) (d : NctData) (s : SioState) : ShowRes :=
  let d1 := nct6775_update_device now hz d
  ⟨(if d1.hddsaver_status then "On" else "Off") ++ "\n", d1, s, []⟩

/-- Result of the sysfs store callback. -/
structure StoreRes where
  ret : Int
  data : NctData
  chip : SioState
  ev : List Ev

/-- store_hddsaver: parse the boolean, enter the bracket, and only when
the requested value differs from the cached status select the GPIO
logical device and flip bit 0 of the GPIO1 data register; always exit
the bracket that was entered.  `sioreg` is sio_data->sioreg from the
platform data, `cnt` the byte count returned on success. -/
def store_hddsaver (sioreg : Nat) (buf : List Char) (cnt : Int)
    (enterOk : Bool) (d : NctData) (s : SioState) : StoreRes :=
  match kstrtobool buf with
  | none => ⟨-EINVAL, d, s, []⟩
  | some val =>
    let r1 := superio_enter sioreg enterOk s
    if r1.1 ≠ 0 then ⟨r1.1, d, r1.2.1, r1.2.2⟩
    else if val ≠ d.hddsaver_status then
      let r2 := superio_select sioreg NCT6775_LD_GPIO_DATA r1.2.1
      let r3 := superio_inb sioreg NCT6775_REG_CR_GPIO1_DATA r2.1
      let r4 := superio_outb sioreg NCT6775_REG_CR_GPIO1_DATA
                  (r3.1 ^^^ 1) r3.2.1
      let r5 := superio_exit sioreg r4.1
      ⟨cnt, { d with hddsaver_status := val }, r5.1,
       r1.2.2 ++ r2.2 ++ r3.2.2 ++ r4.2 ++ r5.2⟩
    else
      let r5 := superio_exit sioreg r1.2.1
      ⟨cnt, d, r5.1, r1.2.2 ++ r5.2⟩

/-- nct6791_enable_io_mapping: read the IO-space-lock-enable register;
if bit 4 is set, clear it.  For a byte value, the source expression
`val & ~0x10` equals `val &&& 0xef`. -/
def nct6791_enable_io_mapping (sioaddr : Nat) (s : SioState) :
    SioState × List Ev :=
  let r := superio_inb sioaddr NCT6791_REG_HM_IO_SPACE_LOCK_ENABLE s
  if r.1 &&& 0x10 ≠ 0 then
    let r2 := superio_outb sioaddr NCT6791_REG_HM_IO_SPACE_LOCK_ENABLE
                (r.1 &&& 0xef) r.2.1
    (r2.1, r.2.2 ++ r2.2)
  else (r.2.1, r.2.2)

/-- Result of the resume callback. -/
structure ResumeRes where
  ret : Int
  data : NctData
  chip : SioState
  ev : List Ev

/-- hddsaver_resume: force bank reselection, enter the bracket (on
failure return the error, still marking the cache invalid), select the
HWM logical device, rewrite the enable register if it differs from the
remembered sio_reg_enable, apply the nct6791 IO-mapping workaround,
exit, and mark the cache invalid. -/
def hddsaver_resume (enterOk : Bool) (d : NctData) (s : SioState) :
    ResumeRes :=
  let d1 : NctData := { d with bank := 0xff }
  let r1 := superio_enter d.sioreg enterOk s
  if r1.1 ≠ 0 then ⟨r1.1, { d1 with valid := false }, r1.2.1, r1.2.2⟩
  else
    let r2 := superio_select d.sioreg NCT6775_LD_HWM r1.2.1
    let r3 := superio_inb d.sioreg SIO_REG_ENABLE r2.1
    let r4 := if r3.1 ≠ d.sio_reg_enable then
                superio_outb d.sioreg SIO_REG_ENABLE d.sio_reg_enable r3.2.1
              else (r3.2.1, [])
    let r5 := if d.kind = Kinds.nct6791 then
                nct6791_enable_io_mapping d.sioreg r4.1
              else (r4.1, [])
    let r6 := superio_exit d.sioreg r5.1
    ⟨0, { d1 with valid := false }, r6.1,
     r1.2.2 ++ r2.2 ++ r3.2.2 ++ r4.2 ++ r5.2 ++ r6.2⟩

/-- Result of discovery (nct6775_find): the return value (the positive
discovered base address, or a negative error), the updated platform
data, the chip state and the trace. -/
structure FindRes where
  ret : Int
  sd : SioDataRec
  chip : SioState
  ev : List Ev

/-- nct6775_find: enter the bracket, read the 16-bit device ID, reject
unknown IDs, select the HWM logical device, read and align its base
address (rejecting zero), force the enable bit if clear, apply the
nct6791 IO-mapping workaround, exit, and return the base address. -/
def nct6775_find (sioaddr : Nat) (enterOk : Bool) (sd : SioDataRec)
    (s : SioState) : FindRes :=
  let r1 := superio_enter sioaddr enterOk s
  if r1.1 ≠ 0 then ⟨r1.1, sd, r1.2.1, r1.2.2⟩
  else
    let r2 := superio_inb sioaddr SIO_REG_DEVID r1.2.1
    let r3 := superio_inb sioaddr (SIO_REG_DEVID + 1) r2.2.1
    let v := (r2.1 <<< 8) ||| r3.1
    if v &&& SIO_ID_MASK = SIO_NCT6791_ID then
      let sd1 : SioDataRec := { sd with kind := Kinds.nct6791 }
      let r4 := superio_select sioaddr NCT6775_LD_HWM r3.2.1
      let r5 := superio_inb sioaddr SIO_REG_ADDR r4.1
      let r6 := superio_inb sioaddr (SIO_REG_ADDR + 1) r5.2.1
      let addr := ((r5.1 <<< 8) ||| r6.1) &&& IOREGION_ALIGNMENT
      if addr = 0 then
        let r7 := superio_exit sioaddr r6.2.1
        ⟨-ENODEV, sd1, r7.1,
         r1.2.2 ++ r2.2.2 ++ r3.2.2 ++ r4.2 ++ r5.2.2 ++ r6.2.2 ++ r7.2⟩
      else
        let r7 := superio_inb sioaddr SIO_REG_ENABLE r6.2.1
        let r8 := if r7.1 &&& 0x01 = 0 then
                    superio_outb sioaddr SIO_REG_ENABLE (r7.1 ||| 0x01) r7.2.1
                  else (r7.2.1, [])
        let r9 := if sd1.kind = Kinds.nct6791 then
                    nct6791_enable_io_mapping sioaddr r8.1
                  else (r8.1, [])
        let r10 := superio_exit sioaddr r9.1
        ⟨Int.ofNat addr, { sd1 with sioreg := sioaddr }, r10.1,
         r1.2.2 ++ r2.2.2 ++ r3.2.2 ++ r4.2 ++ r5.2.2 ++ r6.2.2 ++
           r7.2.2 ++ r8.2 ++ r9.2 ++ r10.2⟩
    else
      let r4 := superio_exit sioaddr r3.2.1
      ⟨-ENODEV, sd, r4.1, r1.2.2 ++ r2.2.2 ++ r3.2.2 ++ r4.2⟩

/-- The bounded devm_request_region retry loop of probe: `att i` is the
environment-supplied outcome of attempt number i; the loop stops at the
first success and makes at most the given number of attempts.  Returns
(success, number of attempts actually made). -/
def regionRetryAux (att : Nat → Bool) : Nat → Nat → Bool × Nat
  | 0, i => (false, i)
  | k + 1, i => if att i then (true, i + 1) else regionRetryAux att k (i + 1)

/-- Board allow-list gate of probe: vendor must be ASRock and the model
one of the three listed names; a missing DMI string fails the gate. -/
def boardAllowed (vendor nm : Option String) : Bool :=
  match nm, vendor with
  | some n, some v =>
    v == "ASRock" &&
      (n == "Z97 Extreme4" || n == "Z97 Extreme6" || n == "X99 Extreme4/3.1")
  | _, _ => false

/-- Result of probe: return value, the published device record (none
when probe failed before devm_kzalloc / platform_set_drvdata), chip
state and trace. -/
structure ProbeRes where
  ret : Int
  data : Option NctData
  chip : SioState
  ev : List Ev

/-- nct6775_probe: bounded region-reservation retry, allocation
(zero-filled record), field initialization, the chip-kind switch, the
DMI allow-list gate on configuration bit 6 of register 0x2a, and —
only when the capability was validated — the initial GPIO1 status
read; the bracket entered for the register reads is exited on both
branches.  The sysfs group registration and the (uninitialized)
hwmon_dev return value of the source are outside the modelled state;
success is 0. -/
def nct6775_probe (att : Nat → Bool) (allocOk : Bool)
    (vendor nm : Option String) (enterOk : Bool) (res_start : Nat)
    (sd : SioDataRec) (s : SioState) : ProbeRes :=
  let reg := regionRetryAux att MAXRETRIES 0
  if reg.1 = false then ⟨-EBUSY, none, s, []⟩
  else if allocOk = false then ⟨-ENOMEM, none, s, []⟩
  else
    let d0 : NctData :=
      { addr := res_start, sioreg := sd.sioreg, kind := sd.kind,
        REG_CONFIG := 0, valid := false, last_updated := 0, bank := 0xff,
        in_num := 0, have_hddsaver := false, hddsaver_status := false,
        sio_reg_enable := 0 }
    let d1 := match sd.kind with
      | Kinds.nct6791 =>
        { d0 with in_num := 15, REG_CONFIG := NCT6775_REG_CONFIG }
    let r1 := superio_enter sd.sioreg enterOk s
    if r1.1 ≠ 0 then ⟨r1.1, some d1, r1.2.1, r1.2.2⟩
    else
      let r2 := superio_inb sd.sioreg 0x2a r1.2.1
      let d2 := { d1 with
        have_hddsaver := boardAllowed vendor nm && (r2.1 &&& 0x40 != 0) }
      if d2.have_hddsaver then
        let r3 := superio_select sd.sioreg NCT6775_LD_GPIO_DATA r2.2.1
        let r4 := superio_inb sd.sioreg NCT6775_REG_CR_GPIO1_DATA r3.1
        let d3 := { d2 with hddsaver_status := (r4.1 &&& 1) != 0 }
        let r5 := superio_exit sd.sioreg r4.2.1
        ⟨0, some d3, r5.1, r1.2.2 ++ r2.2.2 ++ r3.2 ++ r4.2.2 ++ r5.2⟩
      else
        let r5 := superio_exit sd.sioreg r2.2.1
        ⟨0, some d2, r5.1, r1.2.2 ++ r2.2.2 ++ r5.2⟩

/-- Number of region releases in a trace (superio_exit occurrences). -/
def relCount : List Ev → Nat
  | [] => 0
  | Ev.relRegion _ _ :: t => relCount t + 1
  | _ :: t => relCount t

/-- Number of successful region reservations in a trace (successful
superio_enter occurrences). -/
def reqOkCount : List Ev → Nat
  | [] => 0
  | Ev.reqRegion _ _ true :: t => reqOkCount t + 1
  | _ :: t => reqOkCount t

/-- Number of port transactions (outb or inb) in a trace. -/
def busCount : List Ev → Nat
  | [] => 0
  | Ev.outb _ _ :: t => busCount t + 1
  | Ev.inb _ :: t => busCount t + 1
  | _ :: t => busCount t

/-- The 16-bit device ID the discovery pass reads from an initial chip
state: two byte reads at index 0x20/0x21 under the initial logical
device. -/
def devid16 (s : SioState) : Nat :=
  ((s.regs s.ld SIO_REG_DEVID % 256) <<< 8) |||
    (s.regs s.ld (SIO_REG_DEVID + 1) % 256)

/-- The aligned HWM base address the discovery pass computes from an
initial chip state. -/
def hwmBase (s : SioState) : Nat :=
  (((s.regs NCT6775_LD_HWM SIO_REG_ADDR % 256) <<< 8) |||
     (s.regs NCT6775_LD_HWM (SIO_REG_ADDR + 1) % 256)) &&& IOREGION_ALIGNMENT

/-- One control-surface operation: a sysfs read or a sysfs write with
its environment inputs. -/
inductive CtlOp where
  | rd (now hz : Nat)
  | wr (sioreg : Nat) (buf : List Char) (cnt : Int) (enterOk : Bool)

/-- Run one control-surface operation on the device/chip pair. -/
def runOp (o : CtlOp) (p : NctData × SioState) : NctData × SioState :=
  match o with
  | CtlOp.rd now hz =>
    let r := show_hddsaver now hz p.1 p.2
    (r.data, r.chip)
  | CtlOp.wr sioreg buf cnt enterOk =>
    let r := store_hddsaver sioreg buf cnt enterOk p.1 p.2
    (r.data, r.chip)

/-- Run a sequence of control-surface operations. -/
def runOps : List CtlOp → NctData × SioState → NctData × SioState
  | [], p => p
  | o :: os, p => runOps os (runOp o p)

/-- The cache-coherence invariant: the cached status equals bit 0 of
the GPIO1 data register of logical device 8. -/
def cacheInv (d : NctData) (s : SioState) : Prop :=
  (d.hddsaver_status = true ↔
    s.regs NCT6775_LD_GPIO_DATA NCT6775_REG_CR_GPIO1_DATA % 2 = 1)

/-- A device record with the capability absent and the toggle off, as
probe publishes it on an unlisted board. -/
def dOff : NctData :=
  { addr := 0x295, sioreg := 0x2e, kind := Kinds.nct6791, REG_CONFIG := 0x40,
    valid := true, last_updated := 0, bank := 0xff, in_num := 15,
    have_hddsaver := false, hddsaver_status := false, sio_reg_enable := 0 }

/-- A chip whose registers all read zero. -/
def sZero : SioState := ⟨0, 0, fun _ _ => 0⟩

/-- A device record whose cache is marked invalid (stale) while the
capability is present and the cached toggle is off. -/
def dStale : NctData :=
  { addr := 0x295, sioreg := 0x2e, kind := Kinds.nct6791, REG_CONFIG := 0x40,
    valid := false, last_updated := 0, bank := 0xff, in_num := 15,
    have_hddsaver := true, hddsaver_status := false, sio_reg_enable := 0 }

/-- A chip whose GPIO1 data register has bit 0 set and all other
registers zero. -/
def sBitOn : SioState :=
  ⟨0, 0, fun l r => if l = NCT6775_LD_GPIO_DATA ∧ r = NCT6775_REG_CR_GPIO1_DATA
                    then 1 else 0⟩

/-- A chip whose HWM enable register reads 1 (logical device enabled)
and all other registers zero. -/
def sHwm : SioState :=
  ⟨0, 0, fun l r => if l = NCT6775_LD_HWM ∧ r = SIO_REG_ENABLE then 1 else 0⟩

/-- The device record probe publishes from sHwm on an allow-listed
board: configuration bit 6 reads clear there, so the capability is
reported absent; sio_reg_enable is left at its zero-fill value. -/
def dProbed : NctData :=
  { addr := 0x295, sioreg := 0x2e, kind := Kinds.nct6791, REG_CONFIG := 0x40,
    valid := false, last_updated := 0, bank := 0xff, in_num := 15,
    have_hddsaver := false, hddsaver_status := false, sio_reg_enable := 0 }

/-- A chip whose device ID reads 0xc805 (matching the nct6791 mask),
whose HWM base-address register reads 0x0295 (aligned to 0x0290), and
whose HWM enable bit is already set. -/
def sFind : SioState := ⟨0, 0, fun l r =>
  if l = 0 ∧ r = 0x20 then 0xc8 else if l = 0 ∧ r = 0x21 then 0x05
  else if l = 0x0b ∧ r = 0x60 then 0x02 else if l = 0x0b ∧ r = 0x61 then 0x95
  else if l = 0x0b ∧ r = 0x30 then 0x01 else 0⟩

/-- A chip whose registers all read 0xff: the configuration bit 6 is
set and the GPIO1 bit 0 is set. -/
def sOnes : SioState := ⟨0, 0, fun _ _ => 0xff⟩

/-- The device record probe publishes from sOnes on an allow-listed
board: capability present, status read back as on. -/
def dOn : NctData :=
  { addr := 0x295, sioreg := 0x2e, kind := Kinds.nct6791, REG_CONFIG := 0x40,
    valid := false, last_updated := 0, bank := 0xff, in_num := 15,
    have_hddsaver := true, hddsaver_status := true, sio_reg_enable := 0 }

/-- C1: counterexample.  On a device with have_hddsaver = false and the
cached status false, writing the parseable boolean "1" is not ignored:
the store path selects the GPIO logical device (index 0x07 written with
value 8), rewrites the GPIO1 data register, and sets the cached status
to true.  This refutes the claim that with the capability flag false
every parseable write has no hardware effect and leaves the cache
false. -/
theorem c1_counterexample :
    dOff.have_hddsaver = false
  ∧ (store_hddsaver 0x2e ['1'] 1 true dOff sZero).data.hddsaver_status = true
  ∧ Ev.outb 0x2e SIO_REG_LDSEL ∈ (store_hddsaver 0x2e ['1'] 1 true dOff sZero).ev
  ∧ Ev.outb (0x2e + 1) NCT6775_LD_GPIO_DATA ∈
      (store_hddsaver 0x2e ['1'] 1 true dOff sZero).ev
  ∧ (store_hddsaver 0x2e ['1'] 1 true dOff sZero).chip.regs
      NCT6775_LD_GPIO_DATA NCT6775_REG_CR_GPIO1_DATA ≠
      sZero.regs NCT6775_LD_GPIO_DATA NCT6775_REG_CR_GPIO1_DATA := by
  decide

/-- C2: the cache-refresh pass at a stale state.  With the valid flag
down and the hardware GPIO1 bit 0 set, show_hddsaver issues no port
transaction at all (empty trace, chip untouched), merely rewrites the
timestamp and valid flag, and still reports the cached "Off" — the
claimed re-enter / re-select / re-read of the status bit does not
happen anywhere in nct6775_update_device. -/
theorem c2_code_divergence :
    (show_hddsaver 1000 100 dStale sBitOn).ev = []
  ∧ (show_hddsaver 1000 100 dStale sBitOn).chip = sBitOn
  ∧ (show_hddsaver 1000 100 dStale sBitOn).out = "Off\n"
  ∧ (show_hddsaver 1000 100 dStale sBitOn).data =
      { dStale with last_updated := 1000, valid := true }
  ∧ sBitOn.regs NCT6775_LD_GPIO_DATA NCT6775_REG_CR_GPIO1_DATA % 2 = 1
  ∧ dStale.valid = false := by
  exact ⟨rfl, rfl, rfl, by decide, by decide, rfl⟩

/-- C3: counterexample.  A write whose desired value equals the cached
status (here "0" against a false cache) still produces bus traffic:
the bracket is entered and exited unconditionally, so the trace holds
the region reservation, the 0x87 0x87 unlock key, the 0xaa / 0x02 lock
sequence and the release — it is not empty as the claim requires. -/
theorem c3_counterexample :
    dOff.hddsaver_status = false
  ∧ kstrtobool ['0'] = some false
  ∧ (store_hddsaver 0x2e ['0'] 1 true dOff sZero).ev =
      [Ev.reqRegion 0x2e 2 true, Ev.outb 0x2e 0x87, Ev.outb 0x2e 0x87,
       Ev.outb 0x2e 0xaa, Ev.outb 0x2e 0x02, Ev.outb (0x2e + 1) 0x02,
       Ev.relRegion 0x2e 2]
  ∧ (store_hddsaver 0x2e ['0'] 1 true dOff sZero).ev ≠ [] := by
  decide

/-- C4: resume does not restore an observed pre-suspend value.  After a
probe that saw the HWM enable register reading 1, the published record
still has sio_reg_enable = 0 — no assignment to that field exists in
the driver, it keeps its devm_kzalloc zero fill — so resume, finding
the hardware value 1 different from 0, writes 0 to the enable register
(the data-port write of 0 is in the trace), disabling the logical
device instead of re-asserting the remembered value. -/
theorem c4_code_divergence :
    (nct6775_probe (fun _ => true) true (some "ASRock") (some "Z97 Extreme4")
        true 0x295 ⟨0x2e, Kinds.nct6791⟩ sHwm).data = some dProbed
  ∧ dProbed.sio_reg_enable = 0
  ∧ sHwm.regs NCT6775_LD_HWM SIO_REG_ENABLE = 1
  ∧ (hddsaver_resume true dProbed
        (nct6775_probe (fun _ => true) true (some "ASRock") (some "Z97 Extreme4")
          true 0x295 ⟨0x2e, Kinds.nct6791⟩ sHwm).chip).chip.regs
        NCT6775_LD_HWM SIO_REG_ENABLE = 0
  ∧ Ev.outb (0x2e + 1) 0 ∈ (hddsaver_resume true dProbed
        (nct6775_probe (fun _ => true) true (some "ASRock") (some "Z97 Extreme4")
          true 0x295 ⟨0x2e, Kinds.nct6791⟩ sHwm).chip).ev := by
  decide

/-- C3 (amended): a control-surface write whose parsed value equals the
current cached status succeeds with the byte count, leaves the whole
device record (cached status, last_updated, bank) unchanged, leaves the
GPIO1 data register untouched, and issues exactly the bracket traffic —
the region reservation, the 0x87 0x87 unlock key, the 0xaa / 0x02 lock
key and the release — with no logical-device selection and no GPIO
register access. -/
theorem c3_amended (sioreg : Nat) (buf : List Char) (cnt : Int)
    (d : NctData) (s : SioState) (v : Bool)
    (hb : kstrtobool buf = some v) (hv : v = d.hddsaver_status) :
    (store_hddsaver sioreg buf cnt true d s).ret = cnt
  ∧ (store_hddsaver sioreg buf cnt true d s).data = d
  ∧ (store_hddsaver sioreg buf cnt true d s).ev =
      [Ev.reqRegion sioreg 2 true, Ev.outb sioreg 0x87, Ev.outb sioreg 0x87,
       Ev.outb sioreg 0xaa, Ev.outb sioreg 0x02, Ev.outb (sioreg + 1) 0x02,
       Ev.relRegion sioreg 2]
  ∧ (store_hddsaver sioreg buf cnt true d s).chip.regs
      NCT6775_LD_GPIO_DATA NCT6775_REG_CR_GPIO1_DATA =
      s.regs NCT6775_LD_GPIO_DATA NCT6775_REG_CR_GPIO1_DATA := by
  simp [store_hddsaver, hb, hv, superio_enter, superio_exit, outIndex, outData,
        inData, updReg, SIO_REG_LDSEL, NCT6775_LD_GPIO_DATA,
        NCT6775_REG_CR_GPIO1_DATA]

/-- C3: witness instantiating c3_amended at a concrete no-op write. -/
theorem c3_witness :
    (store_hddsaver 0x2e ['0'] 1 true dOff sZero).data = dOff := by
  have h := c3_amended 0x2e ['0'] 1 dOff sZero false (by decide) (by decide)
  exact h.2.1

/-- C1 (amended): on a device with the capability flag false (and hence
a false cached status), a write whose parsed value is false — the only
value equal to the always-false state — succeeds, changes nothing in
the device record, leaves the GPIO1 data register untouched, and emits
only the bracket enter/exit traffic with no GPIO logical-device
selection or data access.  Writes parsing to true are not ignored (see
the counterexample): the control surface does not gate on
have_hddsaver. -/
theorem c1_amended (sioreg : Nat) (buf : List Char) (cnt : Int)
    (d : NctData) (s : SioState)
    (hf : d.have_hddsaver = false) (hs : d.hddsaver_status = false)
    (hb : kstrtobool buf = some false) :
    (store_hddsaver sioreg buf cnt true d s).ret = cnt
  ∧ (store_hddsaver sioreg buf cnt true d s).data = d
  ∧ (store_hddsaver sioreg buf cnt true d s).data.hddsaver_status = false
  ∧ (store_hddsaver sioreg buf cnt true d s).ev =
      [Ev.reqRegion sioreg 2 true, Ev.outb sioreg 0x87, Ev.outb sioreg 0x87,
       Ev.outb sioreg 0xaa, Ev.outb sioreg 0x02, Ev.outb (sioreg + 1) 0x02,
       Ev.relRegion sioreg 2]
  ∧ (store_hddsaver sioreg buf cnt true d s).chip.regs
      NCT6775_LD_GPIO_DATA NCT6775_REG_CR_GPIO1_DATA =
      s.regs NCT6775_LD_GPIO_DATA NCT6775_REG_CR_GPIO1_DATA := by
  simp [store_hddsaver, hb, hs, superio_enter, superio_exit, outIndex, outData,
        inData, updReg, SIO_REG_LDSEL, NCT6775_LD_GPIO_DATA,
        NCT6775_REG_CR_GPIO1_DATA]

/-- C1: witness instantiating c1_amended at a concrete absent-feature
write of false. -/
theorem c1_witness :
    (store_hddsaver 0x2e ['n'] 1 true dOff sZero).ret = 1 := by
  have h := c1_amended 0x2e ['n'] 1 dOff sZero (by decide) (by decide) (by decide)
  exact h.1

theorem relCount_append (l1 l2 : List Ev) :
    relCount (l1 ++ l2) = relCount l1 + relCount l2 := by
  induction l1 with
  | nil => simp [relCount]
  | cons e t ih => cases e <;> simp [relCount, ih] <;> omega

theorem reqOkCount_append (l1 l2 : List Ev) :
    reqOkCount (l1 ++ l2) = reqOkCount l1 + reqOkCount l2 := by
  induction l1 with
  | nil => simp [reqOkCount]
  | cons e t ih =>
    cases e with
    | outb p v => simp [reqOkCount, ih]
    | inb p => simp [reqOkCount, ih]
    | reqRegion b l ok => cases ok <;> simp [reqOkCount, ih] <;> omega
    | relRegion b l => simp [reqOkCount, ih]

theorem find_pairing (a : Nat) (ok : Bool) (sd : SioDataRec) (s : SioState) :
    relCount (nct6775_find a ok sd s).ev = reqOkCount (nct6775_find a ok sd s).ev
  ∧ (ok = true → reqOkCount (nct6775_find a ok sd s).ev = 1)
  ∧ (ok = false → (nct6775_find a ok sd s).ev = [Ev.reqRegion a 2 false]) := by
  cases ok
  · simp [nct6775_find, superio_enter, relCount, reqOkCount, EBUSY]
  · simp only [nct6775_find, superio_enter, superio_inb, superio_select,
      superio_outb, superio_exit, nct6791_enable_io_mapping, if_true]
    repeat' split
    all_goals
      simp_all [relCount_append, reqOkCount_append, relCount, reqOkCount]

theorem store_pairing (sioreg : Nat) (buf : List Char) (cnt : Int) (ok : Bool)
    (d : NctData) (s : SioState) :
    relCount (store_hddsaver sioreg buf cnt ok d s).ev =
      reqOkCount (store_hddsaver sioreg buf cnt ok d s).ev
  ∧ (∀ v, kstrtobool buf = some v → ok = true →
      reqOkCount (store_hddsaver sioreg buf cnt ok d s).ev = 1)
  ∧ (∀ v, kstrtobool buf = some v → ok = false →
      (store_hddsaver sioreg buf cnt ok d s).ev = [Ev.reqRegion sioreg 2 false])
  ∧ (kstrtobool buf = none → (store_hddsaver sioreg buf cnt ok d s).ev = []) := by
  rcases hk : kstrtobool buf with _ | v
  · simp [store_hddsaver, hk, relCount, reqOkCount]
  · cases ok
    · simp [store_hddsaver, hk, superio_enter, relCount, reqOkCount, EBUSY]
    · by_cases hv : v = d.hddsaver_status
      · simp [store_hddsaver, hk, hv, superio_enter, superio_exit, relCount,
          reqOkCount, relCount_append, reqOkCount_append]
      · simp [store_hddsaver, hk, hv, superio_enter, superio_exit,
          superio_select, superio_inb, superio_outb, relCount, reqOkCount,
          relCount_append, reqOkCount_append]

theorem resume_pairing (ok : Bool) (d : NctData) (s : SioState) :
    relCount (hddsaver_resume ok d s).ev = reqOkCount (hddsaver_resume ok d s).ev
  ∧ (ok = true → reqOkCount (hddsaver_resume ok d s).ev = 1)
  ∧ (ok = false → (hddsaver_resume ok d s).ev = [Ev.reqRegion d.sioreg 2 false]) := by
  cases ok
  · simp [hddsaver_resume, superio_enter, relCount, reqOkCount, EBUSY]
  · simp only [hddsaver_resume, superio_enter, superio_inb, superio_select,
      superio_outb, superio_exit, nct6791_enable_io_mapping, if_true]
    repeat' split
    all_goals
      simp_all [relCount_append, reqOkCount_append, relCount, reqOkCount]

theorem probe_pairing (att : Nat → Bool) (allocOk : Bool)
    (vendor nm : Option String) (ok : Bool) (rs : Nat) (sd : SioDataRec)
    (s : SioState) :
    relCount (nct6775_probe att allocOk vendor nm ok rs sd s).ev =
      reqOkCount (nct6775_probe att allocOk vendor nm ok rs sd s).ev
  ∧ ((regionRetryAux att MAXRETRIES 0).1 = true → allocOk = true → ok = true →
      reqOkCount (nct6775_probe att allocOk vendor nm ok rs sd s).ev = 1)
  ∧ ((regionRetryAux att MAXRETRIES 0).1 = true → allocOk = true → ok = false →
      (nct6775_probe att allocOk vendor nm ok rs sd s).ev =
        [Ev.reqRegion sd.sioreg 2 false]) := by
  cases hr : (regionRetryAux att MAXRETRIES 0).1
  · simp [nct6775_probe, hr, relCount, reqOkCount]
  · cases allocOk
    · simp [nct6775_probe, hr, relCount, reqOkCount]
    · cases ok
      · simp [nct6775_probe, hr, superio_enter, relCount, reqOkCount, EBUSY]
      · simp only [nct6775_probe, hr, superio_enter, superio_inb,
          superio_select, superio_outb, superio_exit, if_true]
        repeat' split
        all_goals
          simp_all [relCount_append, reqOkCount_append, relCount, reqOkCount]

/-- C5: bracket pairing.  For each operation that enters the protocol
bracket — discovery, toggle write, resume, and probe — every trace
balances region releases against successful reservations; when the
enter succeeds there is exactly one exit, and when the reservation
fails the operation returns with only the failed reservation in its
trace, so no register was touched and no exit issued. -/
theorem c5_bracket_pairing (a : Nat) (ok : Bool) (sd : SioDataRec) (s : SioState)
    (sioreg : Nat) (buf : List Char) (cnt : Int) (d : NctData) (s2 : SioState)
    (d3 : NctData) (s3 : SioState) (att : Nat → Bool) (allocOk : Bool)
    (vendor nm : Option String) (rs : Nat) (sd4 : SioDataRec) (s4 : SioState) :
    (relCount (nct6775_find a ok sd s).ev = reqOkCount (nct6775_find a ok sd s).ev
      ∧ (ok = true → reqOkCount (nct6775_find a ok sd s).ev = 1)
      ∧ (ok = false → (nct6775_find a ok sd s).ev = [Ev.reqRegion a 2 false]))
  ∧ (relCount (store_hddsaver sioreg buf cnt ok d s2).ev =
        reqOkCount (store_hddsaver sioreg buf cnt ok d s2).ev
      ∧ (∀ v, kstrtobool buf = some v → ok = true →
          reqOkCount (store_hddsaver sioreg buf cnt ok d s2).ev = 1)
      ∧ (∀ v, kstrtobool buf = some v → ok = false →
          (store_hddsaver sioreg buf cnt ok d s2).ev =
            [Ev.reqRegion sioreg 2 false])
      ∧ (kstrtobool buf = none → (store_hddsaver sioreg buf cnt ok d s2).ev = []))
  ∧ (relCount (hddsaver_resume ok d3 s3).ev = reqOkCount (hddsaver_resume ok d3 s3).ev
      ∧ (ok = true → reqOkCount (hddsaver_resume ok d3 s3).ev = 1)
      ∧ (ok = false → (hddsaver_resume ok d3 s3).ev =
          [Ev.reqRegion d3.sioreg 2 false]))
  ∧ (relCount (nct6775_probe att allocOk vendor nm ok rs sd4 s4).ev =
        reqOkCount (nct6775_probe att allocOk vendor nm ok rs sd4 s4).ev
      ∧ ((regionRetryAux att MAXRETRIES 0).1 = true → allocOk = true → ok = true →
          reqOkCount (nct6775_probe att allocOk vendor nm ok rs sd4 s4).ev = 1)
      ∧ ((regionRetryAux att MAXRETRIES 0).1 = true → allocOk = true → ok = false →
          (nct6775_probe att allocOk vendor nm ok rs sd4 s4).ev =
            [Ev.reqRegion sd4.sioreg 2 false])) :=
  ⟨find_pairing a ok sd s, store_pairing sioreg buf cnt ok d s2,
   resume_pairing ok d3 s3, probe_pairing att allocOk vendor nm ok rs sd4 s4⟩

/-- C5: witness instantiating the pairing theorem at concrete inputs. -/
theorem c5_witness :
    reqOkCount (nct6775_find 0x2e true ⟨0, Kinds.nct6791⟩ sZero).ev = 1
  ∧ (store_hddsaver 0x2e [] 1 true dOff sZero).ev = []
  ∧ (hddsaver_resume false dOff sZero).ev = [Ev.reqRegion 0x2e 2 false] := by
  have h := c5_bracket_pairing 0x2e true ⟨0, Kinds.nct6791⟩ sZero 0x2e []
    1 dOff sZero dOff sZero (fun _ => true) true none none 0x295
    ⟨0x2e, Kinds.nct6791⟩ sZero
  have h2 := c5_bracket_pairing 0x2e false ⟨0, Kinds.nct6791⟩ sZero 0x2e []
    1 dOff sZero dOff sZero (fun _ => true) true none none 0x295
    ⟨0x2e, Kinds.nct6791⟩ sZero
  exact ⟨h.1.2.1 rfl, h.2.1.2.2.2 rfl, h2.2.2.1.2.2 rfl⟩

/-- C6: board gating.  Whatever the chip registers hold — in particular
even when configuration bit 6 of register 0x2a is set — a probe run
with a vendor/model pair outside the allow-list publishes a device
record with have_hddsaver = false, on every control path of probe. -/
theorem c6_board_gate (att : Nat → Bool) (allocOk : Bool)
    (vendor nm : Option String) (enterOk : Bool) (rs : Nat) (sd : SioDataRec)
    (s : SioState) (d : NctData)
    (hb : boardAllowed vendor nm = false)
    (hd : (nct6775_probe att allocOk vendor nm enterOk rs sd s).data = some d) :
    d.have_hddsaver = false := by
  simp only [nct6775_probe, hb, Bool.false_and] at hd
  repeat' split at hd
  all_goals (try cases hd)
  all_goals simp_all

/-- C6: witness with a non-allow-listed vendor and all configuration
bits set (bit 6 of register 0x2a included). -/
theorem c6_witness :
    (nct6775_probe (fun _ => true) true (some "EVGA") (some "Z97 Extreme4")
        true 0x295 ⟨0x2e, Kinds.nct6791⟩ sOnes).data = some dProbed
  ∧ dProbed.have_hddsaver = false :=
  ⟨by decide,
   c6_board_gate (fun _ => true) true (some "EVGA") (some "Z97 Extreme4")
     true 0x295 ⟨0x2e, Kinds.nct6791⟩ sOnes dProbed (by decide) (by decide)⟩

theorem regionRetryAux_le (att : Nat → Bool) (k i : Nat) :
    (regionRetryAux att k i).2 ≤ i + k := by
  induction k generalizing i with
  | zero => simp [regionRetryAux]
  | succ n ih =>
    simp only [regionRetryAux]
    split
    · simp
    · have h := ih (i + 1)
      omega

/-- C9: bounded retry.  If all five region-reservation attempts fail,
the retry loop performs exactly MAXRETRIES = 5 attempts and probe
terminates with -EBUSY, publishing nothing and touching no port; a
success at attempt i (the earlier ones failing) stops the loop
immediately after i + 1 attempts; and the loop never makes more than 5
attempts. -/
theorem c9_bounded_retry (att : Nat → Bool) (allocOk : Bool)
    (vendor nm : Option String) (enterOk : Bool) (rs : Nat) (sd : SioDataRec)
    (s : SioState) :
    ((∀ i, i < MAXRETRIES → att i = false) →
       regionRetryAux att MAXRETRIES 0 = (false, MAXRETRIES)
     ∧ (nct6775_probe att allocOk vendor nm enterOk rs sd s).ret = -EBUSY
     ∧ (nct6775_probe att allocOk vendor nm enterOk rs sd s).data = none
     ∧ (nct6775_probe att allocOk vendor nm enterOk rs sd s).ev = [])
  ∧ (∀ i, i < MAXRETRIES → att i = true → (∀ j, j < i → att j = false) →
       regionRetryAux att MAXRETRIES 0 = (true, i + 1))
  ∧ (regionRetryAux att MAXRETRIES 0).2 ≤ MAXRETRIES := by
  refine ⟨?_, ?_, by simpa using regionRetryAux_le att MAXRETRIES 0⟩
  · intro h
    have e : regionRetryAux att MAXRETRIES 0 = (false, MAXRETRIES) := by
      simp [regionRetryAux, MAXRETRIES, h 0 (by decide), h 1 (by decide),
        h 2 (by decide), h 3 (by decide), h 4 (by decide)]
    exact ⟨e, by simp [nct6775_probe, e], by simp [nct6775_probe, e],
      by simp [nct6775_probe, e]⟩
  · intro i hi ht hp
    have hi5 : i < 5 := hi
    interval_cases i <;> simp [regionRetryAux, MAXRETRIES, ht, hp]

/-- C9: witness with all attempts failing and with a first success at
attempt index 2. -/
theorem c9_witness :
    regionRetryAux (fun _ => false) MAXRETRIES 0 = (false, MAXRETRIES)
  ∧ (nct6775_probe (fun _ => false) true none none true 0x295
      ⟨0x2e, Kinds.nct6791⟩ sZero).ret = -EBUSY
  ∧ regionRetryAux (fun i => decide (i = 2)) MAXRETRIES 0 = (true, 3) := by
  have h1 := c9_bounded_retry (fun _ => false) true none none true 0x295
    ⟨0x2e, Kinds.nct6791⟩ sZero
  have h2 := c9_bounded_retry (fun i => decide (i = 2)) true none none true 0x295
    ⟨0x2e, Kinds.nct6791⟩ sZero
  refine ⟨(h1.1 (fun i _ => rfl)).1, (h1.1 (fun i _ => rfl)).2.1, ?_⟩
  exact h2.2.1 2 (by decide) (by decide) (by decide)

/-- C7: identify.  With the bracket entered, nct6775_find returns
-ENODEV exactly when the masked 16-bit device ID differs from the one
supported constant or the aligned HWM base address is zero; on an
unmatched ID the trace is exactly the bracket entry, the two ID reads
and the bracket exit — no enable-register access (forced enable) and
no IO-space-lock register access (workaround) occur; and on a matched
ID with a nonzero base the call returns that positive base address. -/
theorem c7_identify (a : Nat) (sd : SioDataRec) (s : SioState) :
    ((nct6775_find a true sd s).ret = -ENODEV ↔
      (¬ devid16 s &&& SIO_ID_MASK = SIO_NCT6791_ID ∨ hwmBase s = 0))
  ∧ (¬ devid16 s &&& SIO_ID_MASK = SIO_NCT6791_ID →
      (nct6775_find a true sd s).ev =
        [Ev.reqRegion a 2 true, Ev.outb a 0x87, Ev.outb a 0x87,
         Ev.outb a SIO_REG_DEVID, Ev.inb (a + 1),
         Ev.outb a (SIO_REG_DEVID + 1), Ev.inb (a + 1),
         Ev.outb a 0xaa, Ev.outb a 0x02, Ev.outb (a + 1) 0x02,
         Ev.relRegion a 2])
  ∧ (devid16 s &&& SIO_ID_MASK = SIO_NCT6791_ID → ¬ hwmBase s = 0 →
      (nct6775_find a true sd s).ret = Int.ofNat (hwmBase s) ∧
      0 < (nct6775_find a true sd s).ret) := by
  by_cases h1 : devid16 s &&& SIO_ID_MASK = SIO_NCT6791_ID
  all_goals by_cases h2 : hwmBase s = 0
  all_goals
    simp_all [nct6775_find, superio_enter, superio_inb, superio_select,
      superio_outb, superio_exit, nct6791_enable_io_mapping, outIndex, outData,
      inData, updReg, devid16, hwmBase, SIO_REG_LDSEL, SIO_REG_DEVID,
      SIO_REG_ADDR, SIO_REG_ENABLE, SIO_ID_MASK, SIO_NCT6791_ID,
      NCT6775_LD_HWM, NCT6791_REG_HM_IO_SPACE_LOCK_ENABLE,
      IOREGION_ALIGNMENT, EBUSY, ENODEV]
  all_goals omega

/-- C7: witness at two concrete chips: one whose ID reads zero and is
rejected with the short trace, one matching chip returning base
0x290. -/
theorem c7_witness :
    (nct6775_find 0x2e true ⟨0, Kinds.nct6791⟩ sZero).ev =
      [Ev.reqRegion 0x2e 2 true, Ev.outb 0x2e 0x87, Ev.outb 0x2e 0x87,
       Ev.outb 0x2e SIO_REG_DEVID, Ev.inb (0x2e + 1),
       Ev.outb 0x2e (SIO_REG_DEVID + 1), Ev.inb (0x2e + 1),
       Ev.outb 0x2e 0xaa, Ev.outb 0x2e 0x02, Ev.outb (0x2e + 1) 0x02,
       Ev.relRegion 0x2e 2]
  ∧ (nct6775_find 0x2e true ⟨0, Kinds.nct6791⟩ sFind).ret =
      Int.ofNat (hwmBase sFind) := by
  have h := c7_identify 0x2e ⟨0, Kinds.nct6791⟩ sZero
  have h2 := c7_identify 0x2e ⟨0, Kinds.nct6791⟩ sFind
  exact ⟨h.2.1 (by decide), (h2.2.2 (by decide) (by decide)).1⟩

theorem xor_one_lt_256 (x : Nat) (h : x < 256) : x ^^^ 1 < 256 := by
  have h8 : x < 2 ^ 8 := by simpa using h
  have h1 : (1 : Nat) < 2 ^ 8 := by norm_num
  have h2 := @Nat.xor_lt_two_pow x 1 8 h8 h1
  simpa using h2

theorem xor_one_mod_two (x : Nat) : (x ^^^ 1) % 2 = 1 - x % 2 := by
  have h : (x ^^^ 1) &&& 1 = (x &&& 1) ^^^ (1 &&& 1) := Nat.and_xor_distrib_right
  simp only [Nat.and_one_is_mod] at h
  rcases Nat.mod_two_eq_zero_or_one x with h0 | h0 <;> simp [h, h0]

theorem mod256_mod_two (x : Nat) : x % 256 % 2 = x % 2 :=
  Nat.mod_mod_of_dvd x (by norm_num)

/-- C8: toggle round trip.  From a state with the cached status false
and a byte-valued GPIO1 data register, writing "1" then "0" first
replaces the register byte by its bit-0 flip — all bits above 0 kept,
bit 0 inverted — and the second write restores exactly the original
byte. -/
theorem c8_roundtrip (sioreg : Nat) (cnt cnt2 : Int) (d : NctData)
    (s : SioState) (hs : d.hddsaver_status = false)
    (hlt : s.regs NCT6775_LD_GPIO_DATA NCT6775_REG_CR_GPIO1_DATA < 256) :
    ((store_hddsaver sioreg ['1'] cnt true d s).chip.regs
        NCT6775_LD_GPIO_DATA NCT6775_REG_CR_GPIO1_DATA =
      s.regs NCT6775_LD_GPIO_DATA NCT6775_REG_CR_GPIO1_DATA ^^^ 1)
  ∧ (∀ i, 1 ≤ i →
      Nat.testBit ((store_hddsaver sioreg ['1'] cnt true d s).chip.regs
          NCT6775_LD_GPIO_DATA NCT6775_REG_CR_GPIO1_DATA) i =
        Nat.testBit (s.regs NCT6775_LD_GPIO_DATA NCT6775_REG_CR_GPIO1_DATA) i)
  ∧ Nat.testBit ((store_hddsaver sioreg ['1'] cnt true d s).chip.regs
        NCT6775_LD_GPIO_DATA NCT6775_REG_CR_GPIO1_DATA) 0 =
      !Nat.testBit (s.regs NCT6775_LD_GPIO_DATA NCT6775_REG_CR_GPIO1_DATA) 0
  ∧ (store_hddsaver sioreg ['0'] cnt2 true
        (store_hddsaver sioreg ['1'] cnt true d s).data
        (store_hddsaver sioreg ['1'] cnt true d s).chip).chip.regs
        NCT6775_LD_GPIO_DATA NCT6775_REG_CR_GPIO1_DATA =
      s.regs NCT6775_LD_GPIO_DATA NCT6775_REG_CR_GPIO1_DATA := by
  have hg : s.regs 8 241 % 256 = s.regs 8 241 := Nat.mod_eq_of_lt hlt
  have hx : (s.regs 8 241 ^^^ 1) % 256 = s.regs 8 241 ^^^ 1 :=
    Nat.mod_eq_of_lt (xor_one_lt_256 _ hlt)
  have e1 : (store_hddsaver sioreg ['1'] cnt true d s).chip.regs
      NCT6775_LD_GPIO_DATA NCT6775_REG_CR_GPIO1_DATA =
      s.regs NCT6775_LD_GPIO_DATA NCT6775_REG_CR_GPIO1_DATA ^^^ 1 := by
    simp [store_hddsaver, kstrtobool, superio_enter, superio_select,
      superio_inb, superio_outb, superio_exit, outIndex, outData, inData,
      updReg, SIO_REG_LDSEL, NCT6775_LD_GPIO_DATA, NCT6775_REG_CR_GPIO1_DATA,
      hs, hg, hx]
  refine ⟨e1, ?_, ?_, ?_⟩
  · intro i hi
    rw [e1, Nat.testBit_xor]
    rcases i with _ | j
    · omega
    · simp [Nat.testBit_succ]
  · rw [e1, Nat.testBit_xor]
    have h1 : Nat.testBit 1 0 = true := by decide
    rw [h1, Bool.xor_true]
  · simp [store_hddsaver, kstrtobool, superio_enter, superio_select,
      superio_inb, superio_outb, superio_exit, outIndex, outData, inData,
      updReg, SIO_REG_LDSEL, NCT6775_LD_GPIO_DATA, NCT6775_REG_CR_GPIO1_DATA,
      hs, hg, hx, Nat.xor_assoc, Nat.xor_self, Nat.xor_zero]

/-- C8: witness at a concrete state whose GPIO1 byte is 1. -/
theorem c8_witness :
    (store_hddsaver 0x2e ['0'] 1 true
        (store_hddsaver 0x2e ['1'] 1 true dOff sBitOn).data
        (store_hddsaver 0x2e ['1'] 1 true dOff sBitOn).chip).chip.regs
        NCT6775_LD_GPIO_DATA NCT6775_REG_CR_GPIO1_DATA =
      sBitOn.regs NCT6775_LD_GPIO_DATA NCT6775_REG_CR_GPIO1_DATA := by
  have h := c8_roundtrip 0x2e 1 1 dOff sBitOn (by decide) (by decide)
  exact h.2.2.2

theorem show_cacheInv (now hz : Nat) (d : NctData) (s : SioState)
    (h : cacheInv d s) :
    cacheInv (show_hddsaver now hz d s).data (show_hddsaver now hz d s).chip := by
  unfold cacheInv at h ⊢
  simp only [show_hddsaver, nct6775_update_device]
  split <;> simpa using h

theorem store_cacheInv (sioreg : Nat) (buf : List Char) (cnt : Int) (ok : Bool)
    (d : NctData) (s : SioState) (h : cacheInv d s) :
    cacheInv (store_hddsaver sioreg buf cnt ok d s).data
      (store_hddsaver sioreg buf cnt ok d s).chip := by
  rcases hk : kstrtobool buf with _ | v
  · simpa [store_hddsaver, hk] using h
  · cases ok
    · simpa [store_hddsaver, hk, superio_enter, EBUSY] using h
    · by_cases hv : v = d.hddsaver_status
      · unfold cacheInv at h ⊢
        simpa [store_hddsaver, hk, hv, superio_enter, superio_exit, outIndex,
          outData, inData, updReg, SIO_REG_LDSEL, NCT6775_LD_GPIO_DATA,
          NCT6775_REG_CR_GPIO1_DATA] using h
      · unfold cacheInv at h ⊢
        simp only [store_hddsaver, hk, hv, superio_enter, superio_select,
          superio_inb, superio_outb, superio_exit, outIndex, outData, inData,
          updReg, SIO_REG_LDSEL, NCT6775_LD_GPIO_DATA,
          NCT6775_REG_CR_GPIO1_DATA]
        simp [mod256_mod_two, xor_one_mod_two]
        rcases Nat.mod_two_eq_zero_or_one
          (s.regs NCT6775_LD_GPIO_DATA NCT6775_REG_CR_GPIO1_DATA) with h0 | h0 <;>
          cases v <;>
          simp_all [updReg, mod256_mod_two, xor_one_mod_two,
            NCT6775_LD_GPIO_DATA, NCT6775_REG_CR_GPIO1_DATA] <;>
          omega

theorem runOp_cacheInv (o : CtlOp) (p : NctData × SioState)
    (h : cacheInv p.1 p.2) : cacheInv (runOp o p).1 (runOp o p).2 := by
  cases o with
  | rd now hz => exact show_cacheInv now hz p.1 p.2 h
  | wr sioreg buf cnt ok => exact store_cacheInv sioreg buf cnt ok p.1 p.2 h

theorem runOps_cacheInv (ops : List CtlOp) :
    ∀ p : NctData × SioState, cacheInv p.1 p.2 →
      cacheInv (runOps ops p).1 (runOps ops p).2 := by
  induction ops with
  | nil => intro p h; simpa [runOps] using h
  | cons o os ih =>
    intro p h
    simpa [runOps] using ih (runOp o p) (runOp_cacheInv o p h)

/-- C10: cache coherence.  When probe publishes a record with the
capability present, the cached hddsaver_status it computed equals bit 0
of the GPIO1 data register of the resulting chip state, and every
sequence of control-surface reads and writes run from there preserves
that agreement: reads never touch either side, and an effective write
flips the register bit and the cache together. -/
theorem c10_cache_inv (att : Nat → Bool) (allocOk : Bool)
    (vendor nm : Option String) (enterOk : Bool) (rs : Nat) (sd : SioDataRec)
    (s : SioState) (d : NctData)
    (hd : (nct6775_probe att allocOk vendor nm enterOk rs sd s).data = some d)
    (hf : d.have_hddsaver = true) :
    cacheInv d (nct6775_probe att allocOk vendor nm enterOk rs sd s).chip
  ∧ ∀ ops, cacheInv
      (runOps ops (d, (nct6775_probe att allocOk vendor nm enterOk rs sd s).chip)).1
      (runOps ops (d, (nct6775_probe att allocOk vendor nm enterOk rs sd s).chip)).2 := by
  have hbase : cacheInv d (nct6775_probe att allocOk vendor nm enterOk rs sd s).chip := by
    unfold cacheInv
    simp only [nct6775_probe] at hd ⊢
    repeat' split at hd
    all_goals (try cases hd)
    all_goals simp_all [superio_enter, superio_inb, superio_select, superio_exit,
      outIndex, outData, inData, updReg, SIO_REG_LDSEL, NCT6775_LD_GPIO_DATA,
      NCT6775_REG_CR_GPIO1_DATA, Nat.and_one_is_mod, mod256_mod_two, EBUSY]
  exact ⟨hbase, fun ops => runOps_cacheInv ops
    (d, (nct6775_probe att allocOk vendor nm enterOk rs sd s).chip) hbase⟩

/-- C10: witness at the concrete capability-enabled probe. -/
theorem c10_witness :
    cacheInv dOn (nct6775_probe (fun _ => true) true (some "ASRock")
      (some "Z97 Extreme4") true 0x295 ⟨0x2e, Kinds.nct6791⟩ sOnes).chip := by
  have h := c10_cache_inv (fun _ => true) true (some "ASRock")
    (some "Z97 Extreme4") true 0x295 ⟨0x2e, Kinds.nct6791⟩ sOnes dOn
    (by decide) rfl
  exact h.1

end HddSaver
